import Mathlib

/-!
Shallow embedding of the connection/session engine of the XTBpy repository
(src/XTB/client.py and src/XTB/handler.py), together with theorems that settle
the behavioural claims C1 to C10 about it.

Conventions of the embedding:
* Python functions that return `False` on failure and a value on success are
  modelled with `Option` (`none` = the Python `False`).
* An uncaught Python exception is modelled with `PyResult.exn`, carrying the
  exception class name.
* The network is modelled by oracles: `send : Nat → Bool` gives the outcome of
  the n-th `Client.send` call of the modelled function, and
  `rr : Nat → Option Resp` gives the outcome of the n-th
  `_GeneralHandler._receive_response` call (`none` = it returned `False`,
  because the transport failed, the JSON was malformed, or the received text
  was empty).
* Decoded JSON documents are modelled by `JVal`; a decoded top-level response
  is an association list of fields in insertion order, as produced by
  Python's json decoder on an object.
-/

namespace XTBpy

/-- A decoded JSON value, as returned by Python's json decoder. -/
inductive JVal where
  | null
  | bool (b : Bool)
  | int (n : Int)
  | str (s : String)
  | arr (xs : List JVal)
  | obj (fs : List (String × JVal))

/-- A decoded top-level response: a JSON object as an association list of its
fields in insertion order. -/
abbrev Resp := List (String × JVal)

/-- Python truthiness of a decoded JSON value (`if not response:` etc.):
`None`, `False`, `0`, the empty string, the empty list and the empty dict are
falsy, everything else is truthy. -/
def JVal.truthy : JVal → Bool
  | .null => false
  | .bool b => b
  | .int n => n != 0
  | .str s => s != ""
  | .arr xs => !xs.isEmpty
  | .obj fs => !fs.isEmpty

/-- Python truthiness of an optional string attribute such as `self._ssid`
(`None` and the empty string are falsy). -/
def optStrTruthy : Option String → Bool
  | none => false
  | some s => !(s == "")

/-- Dictionary lookup `d[k]` as an `Option` (`none` = the key is absent, which
in Python raises `KeyError` on subscription). -/
def dictGet (fs : Resp) (k : String) : Option JVal :=
  (fs.find? (fun p => p.1 == k)).map (fun p => p.2)

/-- Dictionary membership `k in d`. -/
def dictHas (fs : Resp) (k : String) : Bool :=
  (dictGet fs k).isSome

/-- Value of a field that is known to be present (`d[k]` after `k in d`). -/
def jvalD (o : Option JVal) : JVal := o.getD JVal.null

/-- Python `dict[k] = v`: overwrite in place if the key exists, else append. -/
def dictSet (d : Resp) (k : String) (v : JVal) : Resp :=
  if d.any (fun p => p.1 == k) then
    d.map (fun p => if p.1 == k then (k, v) else p)
  else d ++ [(k, v)]

/-- Python `dict.update`: apply `dictSet` for every entry of the update. -/
def dictUpdate (d e : Resp) : Resp :=
  e.foldl (fun acc p => dictSet acc p.1 p.2) d

/-- The request dictionary built by `_GeneralHandler._send_request`:
starts from `[('command', command)]`, then merges `arguments`, then adds
`streamSessionId` when `stream is not None`, then `customTag` when
`tag is not None`. -/
def send_request_dict (command : String) (stream : Option String)
    (arguments : Option Resp) (tag : Option String) : Resp :=
  let d : Resp := [("command", JVal.str command)]
  let d := match arguments with
    | none => d
    | some args => dictUpdate d args
  let d := match stream with
    | none => d
    | some s => dictSet d "streamSessionId" (JVal.str s)
  match tag with
  | none => d
  | some t => dictSet d "customTag" (JVal.str t)

/-- Result of a Python call that may end in an uncaught exception. -/
inductive PyResult (α : Type) where
  | ok (a : α)
  | exn (name : String)

/-- Outcome of one run of `_GeneralHandler._request` or of the receive loop of
`_GeneralHandler._receive`: the value, the number of transport attempts made,
and the number of times the injected reconnect callback was invoked. -/
structure ChOut (α : Type) where
  val : α
  attempts : Nat
  reconnects : Nat

/-- One iteration of the `while True` loop of `_GeneralHandler._request` when
no further retry is allowed: send once, report the outcome. -/
def requestOnce (send : Nat → Bool) (attempt reconnects : Nat) : ChOut Bool :=
  if send attempt then ⟨true, attempt + 1, reconnects⟩
  else ⟨false, attempt + 1, reconnects⟩

/-- `_GeneralHandler._request`: sends once; on failure, when `retry` is true,
invokes the reconnect callback, sets `retry = False` and loops, so the body
runs at most twice; the unrolling below is exact. -/
def request (send : Nat → Bool) (retry : Bool) : ChOut Bool :=
  match retry with
  | false => requestOnce send 0 0
  | true =>
    if send 0 then ⟨true, 1, 0⟩
    else requestOnce send 1 1

/-- Python truthiness of the result of `_receive_response` as tested by
`if not response:` in `_receive` (`False`, or a decoded but empty object). -/
def respFalsy : Option Resp → Bool
  | none => true
  | some fs => fs.isEmpty

/-- One iteration of the receive loop of `_GeneralHandler._receive` when no
further retry is allowed. -/
def receiveOnce (rr : Nat → Option Resp) (attempt reconnects : Nat) :
    ChOut (Option Resp) :=
  if respFalsy (rr attempt) then ⟨none, attempt + 1, reconnects⟩
  else ⟨rr attempt, attempt + 1, reconnects⟩

/-- The receive loop of `_GeneralHandler._receive` (before the `data`
validation): on a falsy response, when `retry` is true, invokes the reconnect
callback, sets `retry = False` and loops, so the body runs at most twice; the
unrolling below is exact. -/
def receiveRaw (rr : Nat → Option Resp) (retry : Bool) : ChOut (Option Resp) :=
  match retry with
  | false => receiveOnce rr 0 0
  | true =>
    if respFalsy (rr 0) then receiveOnce rr 1 1
    else ⟨rr 0, 1, 0⟩

/-- The `data` validation at the end of `_GeneralHandler._receive`: requires a
`status` field, treats a falsy `status` as an application failure that returns
`False` after logging `response['errorCode']` and `response['errorDescr']`
(those subscriptions raise `KeyError` when the fields are absent). -/
def receiveValidate (data : Bool) (r : Option Resp) : PyResult (Option Resp) :=
  match r with
  | none => .ok none
  | some fs =>
    if data then
      if !(dictHas fs "status") then .ok none
      else if !(JVal.truthy (jvalD (dictGet fs "status"))) then
        if dictHas fs "errorCode" then
          if dictHas fs "errorDescr" then .ok none
          else .exn "KeyError"
        else .exn "KeyError"
      else .ok (some fs)
    else .ok (some fs)

/-- Outcome of a full `_GeneralHandler._receive` call. -/
structure RFOut where
  val : PyResult (Option Resp)
  attempts : Nat
  reconnects : Nat

/-- `_GeneralHandler._receive`: the retrying receive loop followed by the
optional `data` validation. -/
def receiveFull (rr : Nat → Option Resp) (retry data : Bool) : RFOut :=
  ⟨receiveValidate data (receiveRaw rr retry).val,
    (receiveRaw rr retry).attempts, (receiveRaw rr retry).reconnects⟩

/-- The `stream` argument that `_GeneralHandler._send_ping` passes to
`_request`: the source reads `stream=ssid if not bool(ssid) else None`, so a
truthy ssid is replaced by `None` and a falsy one is passed through. -/
def pingStream (ssid : Option String) : Option String :=
  if optStrTruthy ssid then none else ssid

/-- One ping tick of `_GeneralHandler._send_ping`: the request dictionary it
sends, and whether it then awaits and validates a response
(`if not ssid: self._receive(data=True, retry=True)`). -/
structure PingTick where
  requestDict : Resp
  awaitsResponse : Bool

/-- The observable behaviour of one due ping iteration of `_send_ping`. -/
def send_ping_tick (ssid : Option String) : PingTick :=
  { requestDict := send_request_dict "ping" (pingStream ssid) none none
  , awaitsResponse := !optStrTruthy ssid }

/-! ### Session layer: `_DataHandler.getData` and `_StreamHandler.streamData` -/

/-- Outcome of a `_DataHandler.getData` call: the returned value
(`ok none` = the Python `False`), the number of `Client.send` calls, the
number of `_receive_response` calls, and the number of reconnect-callback
invocations. -/
structure GOut where
  result : PyResult (Option JVal)
  sends : Nat
  recvs : Nat
  reconnects : Nat

/-- `_DataHandler.getData`: returns `False` when `self._ssid` is falsy,
otherwise sends the request with `retry=True` (the default), receives with
`data=True`, and returns the `returnData` field of a validated response
(`False` when that field is absent). -/
def getData (ssid : Option String) (send : Nat → Bool)
    (rr : Nat → Option Resp) : GOut :=
  if !optStrTruthy ssid then ⟨.ok none, 0, 0, 0⟩
  else
    let rq := request send true
    if !rq.val then ⟨.ok none, rq.attempts, 0, rq.reconnects⟩
    else
      let rc := receiveFull rr true true
      match rc.val with
      | .exn n => ⟨.exn n, rq.attempts, rc.attempts, rq.reconnects + rc.reconnects⟩
      | .ok none => ⟨.ok none, rq.attempts, rc.attempts, rq.reconnects + rc.reconnects⟩
      | .ok (some fs) =>
        if dictHas fs "returnData" then
          ⟨.ok (some (jvalD (dictGet fs "returnData"))), rq.attempts, rc.attempts,
            rq.reconnects + rc.reconnects⟩
        else ⟨.ok none, rq.attempts, rc.attempts, rq.reconnects + rc.reconnects⟩

/-- A registered stream subscription of `_StreamHandler._streams['tasks']`:
its command name and its argument set. -/
structure StreamTask where
  command : String
  arguments : Resp

/-- The `_StreamHandler._streams` bag: the `tasks` dict (index to task, in
insertion order) and the `stream` flag, which is `none` while the key is
absent, i.e. before the read-loop thread is first started (the `thread` key is
created together with the `stream` key and is not modelled separately). -/
structure StreamsState where
  tasks : List (Nat × StreamTask)
  streamFlag : Option Bool

/-- Outcome of a `_StreamHandler.streamData` call. -/
structure SDOut where
  result : Bool
  state : StreamsState
  sends : Nat
  reconnects : Nat

/-- `_StreamHandler.streamData`: returns `False` when the parent handler's
`_ssid` is falsy; otherwise sends the subscription request with `retry=True`,
registers the task under index `len(tasks)`, and lazily starts the single
read-loop thread the first time (setting the `stream` key). -/
def streamData (dhSsid : Option String) (send : Nat → Bool)
    (st : StreamsState) (command : String) (kwargs : Resp) : SDOut :=
  if !optStrTruthy dhSsid then ⟨false, st, 0, 0⟩
  else
    let rq := request send true
    if !rq.val then ⟨false, st, rq.attempts, rq.reconnects⟩
    else
      let idx := st.tasks.length
      let tasks2 := st.tasks ++ [(idx, ⟨command, kwargs⟩)]
      let flag2 := match st.streamFlag with
        | none => some true
        | some b => some b
      ⟨true, ⟨tasks2, flag2⟩, rq.attempts, rq.reconnects⟩

/-! ### Stream read loop and `endStream` -/

/-- Outcome of a `_StreamHandler.endStream` call. -/
structure EndOut where
  result : PyResult Bool
  stopsSent : List String
  state : StreamsState
  joined : Bool

/-- `_StreamHandler.endStream`: reads `self._streams['stream']` (a `KeyError`
when the stream was never started), clears the flag, joins the read thread
unless `inThread`, then iterates `self._streams['tasks']`, sending a
`stop<command>` request and popping each index from the dict being iterated.
CPython raises `RuntimeError` at the next iterator step after a pop changed
the dict's size, so with at least one task the loop unsubscribes only the
first task and then raises; with no tasks the loop body never runs and the
final log line `"Stream ended for " + command` reads the never-assigned local
`command`, raising `UnboundLocalError`. -/
def endStream (st : StreamsState) (inThread : Bool) : EndOut :=
  match st.streamFlag with
  | none => ⟨.exn "KeyError", [], st, false⟩
  | some _ =>
    let st1 : StreamsState := { st with streamFlag := some false }
    match st.tasks with
    | [] => ⟨.exn "UnboundLocalError", [], st1, !inThread⟩
    | (_, t) :: rest =>
      ⟨.exn "RuntimeError", ["stop" ++ t.command], { st1 with tasks := rest }, !inThread⟩

/-- Outcome of one iteration of the `_StreamHandler._readStream` loop:
`ok true` = the packet was printed and the loop continues, `ok false` = the
loop returned `False`, `exn` = an uncaught exception ended the thread. -/
structure ReadOut where
  result : PyResult Bool
  endStreamCalled : Bool
  stopsSent : List String
  state : StreamsState

/-- One iteration of `_StreamHandler._readStream` (entered with the stream
flag true): receives with `retry=True, data=False`; a falsy response calls
`endStream(inThread=True)` and would then return `False`; a truthy response is
subscripted as `response['data']` (a `KeyError` when the field is absent), and
a falsy `data` value also calls `endStream(inThread=True)`. -/
def readStreamStep (rr : Nat → Option Resp) (st : StreamsState) : ReadOut :=
  let rc := receiveFull rr true false
  match rc.val with
  | .exn n => ⟨.exn n, false, [], st⟩
  | .ok none =>
    let e := endStream st true
    match e.result with
    | .exn n => ⟨.exn n, true, e.stopsSent, e.state⟩
    | .ok _ => ⟨.ok false, true, e.stopsSent, e.state⟩
  | .ok (some fs) =>
    match dictGet fs "data" with
    | none => ⟨.exn "KeyError", false, [], st⟩
    | some v =>
      if v.truthy then ⟨.ok true, false, [], st⟩
      else
        let e := endStream st true
        match e.result with
        | .exn n => ⟨.exn n, true, e.stopsSent, e.state⟩
        | .ok _ => ⟨.ok false, true, e.stopsSent, e.state⟩

/-! ### Transport layer: `Client.create`, `Client.receive`, `Client.close` -/

/-- A resolved socket address (the `sockaddr` element of a `getaddrinfo`
entry; the IPv4 form `(ip, port)`). -/
structure SockAddr where
  ip : String
  port : Nat
deriving DecidableEq

/-- One `getaddrinfo` entry:
`(family, socktype, proto, canonname, sockaddr)`. -/
structure AddrInfo where
  family : Nat
  socktype : Nat
  proto : Nat
  canonname : String
  sockaddr : SockAddr
deriving DecidableEq

/-- The membership test `address[4] in tried_addresses` of `Client.create`.
`tried_addresses` holds whole `getaddrinfo` 5-tuples (the code appends
`address`, not `address[4]`), while `address[4]` is the 2- or 4-element
sockaddr tuple; Python tuple equality between tuples of different lengths is
`False`, so this membership test is `False` for every list. -/
def sockaddrInTried (_sa : SockAddr) (_tried : List AddrInfo) : Bool := false

/-- The candidate selection of one iteration of the `while` loop of
`Client.create`: when fewer candidates than `len(avl)` are accounted for by
`used` plus `tried`, take the first candidate whose sockaddr is in neither
list; otherwise take the first whose sockaddr is not in `tried`. -/
def pickCandidate (avl tried : List AddrInfo) (used : List SockAddr) :
    Option AddrInfo :=
  if used.length + tried.length < avl.length then
    avl.find? (fun a =>
      !sockaddrInTried a.sockaddr tried && !used.contains a.sockaddr)
  else
    avl.find? (fun a => !sockaddrInTried a.sockaddr tried)

/-- Outcome of `Client.create`: `success` carries the tried list and the
updated used-address list, `failure` means every loop iteration failed (the
used list is cleared and `False` is returned), `hang` covers the two paths on
which no candidate is selected in an iteration: `tried_addresses[-1]` raises
`IndexError` when `tried` is empty, and otherwise the loop retries the
previous last candidate forever. -/
inductive CreateOutcome where
  | success (tried : List AddrInfo) (used : List SockAddr)
  | failure (tried : List AddrInfo)
  | hang (tried : List AddrInfo)
deriving DecidableEq

/-- The `while len(tried_addresses) < len(avl_addresses)` loop of
`Client.create`. `ok a` is the outcome of building (and, when encrypted,
TLS-wrapping) a socket for candidate `a`; on success the candidate's sockaddr
is appended to the used list and the call returns `True`. The fuel argument
equals `avl.length - tried.length`, so fuel 0 is exactly the loop exit, after
which the used list is cleared and `False` is returned. -/
def createLoop (ok : AddrInfo → Bool) (avl : List AddrInfo)
    (used : List SockAddr) : List AddrInfo → Nat → CreateOutcome
  | tried, 0 => .failure tried
  | tried, fuel + 1 =>
    match pickCandidate avl tried used with
    | some a =>
      let tried2 := tried ++ [a]
      if ok a then .success tried2 (used ++ [a.sockaddr])
      else createLoop ok avl used tried2 fuel
    | none =>
      match tried.getLast? with
      | none => .hang tried
      | some a =>
        if ok a then .success tried (used ++ [a.sockaddr])
        else .hang tried

/-- `Client.create` after a successful `getaddrinfo` returning `avl`, with the
current used-address list `used`. -/
def create (ok : AddrInfo → Bool) (avl : List AddrInfo)
    (used : List SockAddr) : CreateOutcome :=
  createLoop ok avl used [] avl.length

/-- Outcome of one readability poll of the `Client.receive` loop: the socket
was not readable, `recv` returned the given text, or `recv` raised. -/
inductive PollOutcome where
  | notReady
  | got (s : String)
  | raised

/-- The `while True` loop of `Client.receive`. Per iteration: poll
readability; on an exception return `False`; accumulate any received text; in
streaming mode stop as soon as a non-empty chunk arrived, in non-streaming
mode stop as soon as an iteration yielded no bytes; otherwise sleep and loop.
Returns the accumulated text, the number of polls and the number of sleeps;
the outer `none` means the loop was still running after `fuel` iterations. -/
def clientReceiveLoop (stream : Bool) (poll : Nat → PollOutcome) :
    Nat → String → Nat → Nat → Option (Option String × Nat × Nat)
  | 0, _, _, _ => none
  | fuel + 1, acc, i, sleeps =>
    match poll i with
    | .raised => some (none, i + 1, sleeps)
    | .notReady =>
      if stream then clientReceiveLoop stream poll fuel acc (i + 1) (sleeps + 1)
      else some (some acc, i + 1, sleeps)
    | .got s =>
      let acc2 := acc ++ s
      if stream then
        if s.length > 0 then some (some acc2, i + 1, sleeps)
        else clientReceiveLoop stream poll fuel acc2 (i + 1) (sleeps + 1)
      else
        if s.length = 0 then some (some acc2, i + 1, sleeps)
        else clientReceiveLoop stream poll fuel acc2 (i + 1) (sleeps + 1)

/-- `Client.receive`, starting from an empty accumulator. -/
def clientReceive (stream : Bool) (poll : Nat → PollOutcome) (fuel : Nat) :
    Option (Option String × Nat × Nat) :=
  clientReceiveLoop stream poll fuel "" 0 0

/-- `_GeneralHandler._receive_response` given the outcome of
`Client.receive` (`none` = it returned `False`): a falsy result (also the
empty string) returns `False`; otherwise the text is JSON-decoded, a decode
error returning `False`. `decode` models `json.JSONDecoder.raw_decode`
restricted to object results, which is what the API sends. -/
def receive_response (decode : String → Option Resp) (raw : Option String) :
    Option Resp :=
  match raw with
  | none => none
  | some s => if s = "" then none else decode s

/-- The state of a `Client` that matters to `close`: whether the socket is
open (`fileno() != -1`) and the used-address list. -/
structure ClientState where
  sockOpen : Bool
  usedAddresses : List SockAddr
deriving DecidableEq

/-- `Client.close`: when the socket is open, shuts it down (shutdown errors
are swallowed), closes it and pops the last used address (`list.pop` on an
empty list raises `IndexError`, after the socket was already closed); when
already closed, logs and returns `True`. -/
def clientClose (st : ClientState) : PyResult Bool × ClientState :=
  if st.sockOpen then
    match st.usedAddresses with
    | [] => (.exn "IndexError", { st with sockOpen := false })
    | _ => (.ok true, ⟨false, st.usedAddresses.dropLast⟩)
  else (.ok true, st)

/-! ### Keepalive stop and StreamHandler deletion -/

/-- The `_GeneralHandler._ping` bag: whether the `ping` key is present (it is
created by `_start_ping` and never removed) and the value of the flag. -/
structure PingState where
  keyPresent : Bool
  pingOn : Bool
deriving DecidableEq

/-- `_GeneralHandler._stop_ping`: returns `False` when ping was never
started; otherwise (a second stop only logs "already stopped") clears the
flag, joins the ping thread unless `inThread` (joining a finished thread
returns immediately) and returns `True`. -/
def stop_ping (st : PingState) (_inThread : Bool) : Bool × PingState :=
  if !st.keyPresent then (false, st)
  else (true, { st with pingOn := false })

/-- The state of a `_StreamHandler` that matters to `delete`. -/
structure SHState where
  deleted : Bool
  streams : StreamsState
  ping : PingState
  client : ClientState
  statusActive : Bool
  attached : Bool

/-- `_StreamHandler.delete`: a second call returns `True` at the `_deleted`
guard; a first call runs `self.endStream(index)` for each key of
`self._streams` (the keys are the nonempty strings `tasks`, `stream`,
`thread`, so every call passes a truthy `inThread` and never joins). The
first `endStream` call raises (see `endStream`), and the exception propagates
out of `delete` before `_stop_ping`, `close`, the detach or the `_deleted`
assignment run. The unreachable normal continuation is still modelled. -/
def shDelete (st : SHState) : PyResult Bool × SHState :=
  if st.deleted then (.ok true, st)
  else
    let e := endStream st.streams true
    match e.result with
    | .exn n => (.exn n, { st with streams := e.state })
    | .ok _ =>
      let st1 : SHState := { st with streams := e.state }
      let (_, ping2) := stop_ping st1.ping false
      let (cres, client2) := clientClose st1.client
      match cres with
      | .exn n => (.exn n, { st1 with ping := ping2, client := client2 })
      | .ok _ =>
        (.ok true,
          { st1 with ping := ping2, client := client2, statusActive := false,
                     attached := false, deleted := true })

/-! ### HandlerPool: `HandlerManager` -/

/-- A registered `_DataHandler`, reduced to its status string. -/
structure MDH where
  status : String
deriving DecidableEq

/-- A registered `_StreamHandler`, reduced to its status string and the size
of its `_streams['tasks']` registry. -/
structure MSH where
  status : String
  taskCount : Nat
deriving DecidableEq

/-- The state of a `HandlerManager`. -/
structure MgrState where
  dataHandlers : List MDH
  streamHandlers : List MSH
  connections : Nat
  maxConnections : Nat
  maxStreams : Nat
  deleted : Bool
deriving DecidableEq

/-- `HandlerManager._generate_DataHandler`: refuses (`False`) when the
connection count has reached the maximum; otherwise constructs a
`_DataHandler` (whose constructor logs in and sets its status to `active`),
registers it and increments the connection count. -/
def generate_DataHandler (st : MgrState) : Option MDH × MgrState :=
  if st.maxConnections ≤ st.connections then (none, st)
  else
    let dh : MDH := ⟨"active"⟩
    (some dh,
      { st with dataHandlers := st.dataHandlers ++ [dh],
                connections := st.connections + 1 })

/-- `HandlerManager._avlb_DataHandler`: the first registered data handler
whose status is `active`. -/
def avlb_DataHandler (st : MgrState) : Option MDH :=
  st.dataHandlers.find? (fun h => h.status == "active")

/-- `HandlerManager.provide_DataHandler`: an available handler if any,
otherwise a freshly generated one. -/
def provide_DataHandler (st : MgrState) : Option MDH × MgrState :=
  match avlb_DataHandler st with
  | some h => (some h, st)
  | none => generate_DataHandler st

/-- `HandlerManager._avlb_StreamHandler`: the first registered stream handler
that is active and below the per-multiplexer subscription cap. -/
def avlb_StreamHandler (st : MgrState) : Option MSH :=
  st.streamHandlers.find? (fun h =>
    h.status == "active" && decide (h.taskCount < st.maxStreams))

/-- `HandlerManager._generate_StreamHandler`: refuses (`False`) when the
connection count has reached the maximum; otherwise obtains a data handler
via `provide_DataHandler` (which may itself allocate one and increment the
count), constructs the `_StreamHandler` (its constructor subscribes the
mandatory `KeepAlive` stream, so it starts with one task; passing the `False`
of a failed provide raises `ValueError` in the constructor), registers it and
increments the connection count again. -/
def generate_StreamHandler (st : MgrState) : PyResult (Option MSH) × MgrState :=
  if st.maxConnections ≤ st.connections then (.ok none, st)
  else
    match provide_DataHandler st with
    | (none, st1) => (.exn "ValueError", st1)
    | (some _, st1) =>
      let sh : MSH := ⟨"active", 1⟩
      (.ok (some sh),
        { st1 with streamHandlers := st1.streamHandlers ++ [sh],
                   connections := st1.connections + 1 })

/-- `HandlerManager.provide_StreamHandler`. -/
def provide_StreamHandler (st : MgrState) : PyResult (Option MSH) × MgrState :=
  match avlb_StreamHandler st with
  | some h => (.ok (some h), st)
  | none => generate_StreamHandler st

/-- The guard `handler.get_status == 'active'` of `HandlerManager.delete`:
`handler.get_status` without parentheses is the bound method object itself,
and Python equality between a bound method and a `str` is `False` (neither
type's equality accepts the other, and they are distinct objects). -/
def pyMethodEqStr (_methodName : String) (_s : String) : Bool := false

/-- `HandlerManager._delete_handler` on a `_DataHandler`: `handler.delete()`
runs, the count is decremented once, and then
`for _ in list(handler.get_StreamHandler)` iterates the bound method object
itself (no call parentheses), raising `TypeError` after the decrement. -/
def delete_handler_dh (st : MgrState) (_h : MDH) : PyResult Unit × MgrState :=
  (.exn "TypeError", { st with connections := st.connections - 1 })

/-- The `for handler in self._handlers['data']` loop of
`HandlerManager.delete`, with the method-versus-string guard. -/
def mgrDeleteLoop (st : MgrState) : List MDH → PyResult Unit × MgrState
  | [] => (.ok (), st)
  | h :: rest =>
    if pyMethodEqStr "get_status" "active" then
      match delete_handler_dh st h with
      | (.exn n, st1) => (.exn n, st1)
      | (.ok _, st1) => mgrDeleteLoop st1 rest
    else mgrDeleteLoop st rest

/-- `HandlerManager.delete`: a second call returns at the `_deleted` guard;
otherwise runs the deletion loop over the registered data handlers and sets
`_deleted`. -/
def mgrDelete (st : MgrState) : PyResult Unit × MgrState :=
  if st.deleted then (.ok (), st)
  else
    match mgrDeleteLoop st st.dataHandlers with
    | (.exn n, st1) => (.exn n, st1)
    | (.ok _, st1) => (.ok (), { st1 with deleted := true })

/-! ### Concrete fixtures used by the counterexample evaluations and the
witnesses -/

/-- Iterate a state transformer: the status string of a handler after the
reconnect callback (the only code that rewrites `_status` during a data
request) ran the given number of times. -/
def iterApply (f : String → String) : Nat → String → String
  | 0, s => s
  | n + 1, s => iterApply f n (f s)

/-- First resolved candidate address. -/
def saA : SockAddr := ⟨"81.2.190.163", 5124⟩

/-- Second resolved candidate address, distinct from the first. -/
def saB : SockAddr := ⟨"81.2.190.164", 5124⟩

/-- `getaddrinfo` entry for the first candidate (IPv4, TCP). -/
def aiA : AddrInfo := ⟨2, 1, 6, "", saA⟩

/-- `getaddrinfo` entry for the second candidate (IPv4, TCP). -/
def aiB : AddrInfo := ⟨2, 1, 6, "", saB⟩

/-- The mandatory keepalive subscription registered at construction. -/
def kaTask : StreamTask := ⟨"KeepAlive", []⟩

/-- A second, price-tick subscription. -/
def tpTask : StreamTask := ⟨"TickPrices", [("symbol", JVal.str "EURUSD")]⟩

/-- A multiplexer with two live subscriptions and a running read loop. -/
def twoTaskStreams : StreamsState := ⟨[(0, kaTask), (1, tpTask)], some true⟩

/-- A freshly constructed StreamHandler: the KeepAlive subscription
registered, ping running, socket open, attached to its DataHandler. -/
def shNormal : SHState :=
  ⟨false, ⟨[(0, kaTask)], some true⟩, ⟨true, true⟩, ⟨true, [saA]⟩, true, true⟩

/-- An empty HandlerManager with a connection budget of one. -/
def mgr0 : MgrState := ⟨[], [], 0, 1, 2, false⟩

/-- A HandlerManager holding one active DataHandler. -/
def mgr1 : MgrState := ⟨[⟨"active"⟩], [], 1, 5, 2, false⟩

/-- A server response reporting an application-level failure. -/
def statusFalseResp : Resp :=
  [("status", JVal.bool false), ("errorCode", JVal.str "E1"),
   ("errorDescr", JVal.str "bad")]

/-- A validated response carrying a payload. -/
def okResp : Resp :=
  [("status", JVal.bool true), ("returnData", JVal.str "payload")]

/-- A validated response with no `returnData` field. -/
def noRetResp : Resp := [("status", JVal.bool true)]

/-! ## The claims -/

/-- C1: the claim says that one `create()` call tries each resolved candidate
at most once, prefers untried-and-unused candidates over used ones, and only
after every candidate failed clears the used list and returns false. The code
violates this: with two distinct candidates, both failing, the selection loop
re-picks the first candidate twice (its membership test compares the sockaddr
`address[4]` against a list of whole 5-tuples, which never matches) and never
tries the second candidate before clearing the used list and returning
false. -/
theorem create_retries_first_candidate :
    create (fun _ => false) [aiA, aiB] [] = .failure [aiA, aiA] ∧ aiA ≠ aiB := by
  exact ⟨rfl, by decide⟩

/-- C5: the claim says no allocation path ever pushes the live-connection
count above `maxConnections`. The code violates this: on an empty manager
with a budget of one, `provide_StreamHandler` passes its capacity check,
lets `provide_DataHandler` allocate a fresh DataHandler (count becomes one),
then registers the StreamHandler as well, leaving the count at two, above
the configured maximum of one. -/
theorem provide_StreamHandler_exceeds_max :
    (provide_StreamHandler mgr0).2.connections = 2 ∧
    mgr0.maxConnections = 1 ∧
    (provide_StreamHandler mgr0).1 = .ok (some ⟨"active", 1⟩) ∧
    (provide_StreamHandler mgr0).2.maxConnections <
      (provide_StreamHandler mgr0).2.connections := by
  exact ⟨rfl, rfl, rfl, by decide⟩

/-- C8: the claim says `HandlerManager.delete()` tears down every active
DataHandler and decrements the connection count for each one. The code
violates this: its guard `handler.get_status == 'active'` compares the bound
method object itself (no call) to a string, which is always false, so on a
manager holding one active DataHandler nothing is deleted and the connection
count stays unchanged; only the `_deleted` flag is set. -/
theorem manager_delete_deletes_nothing :
    mgrDelete mgr1 = (.ok (), { mgr1 with deleted := true }) ∧
    (mgrDelete mgr1).2.dataHandlers = [⟨"active"⟩] ∧
    (mgrDelete mgr1).2.connections = 1 := by
  exact ⟨rfl, rfl, rfl⟩

/-- C9: the claim says a ping started with a stream token carries that token
as `streamSessionId` (and skips the response), while a ping without a token
carries none and awaits a validated response. The code violates the first
half: `_send_ping` passes `stream = ssid if not bool(ssid) else None`, an
inverted condition, so with the token "abc123" the ping request is just
`[('command', 'ping')]` with no `streamSessionId` field. The token-free half
behaves as claimed. -/
theorem ping_request_drops_stream_token :
    (send_ping_tick (some "abc123")).requestDict = [("command", JVal.str "ping")] ∧
    dictGet (send_ping_tick (some "abc123")).requestDict "streamSessionId" = none ∧
    (send_ping_tick (some "abc123")).awaitsResponse = false ∧
    (send_ping_tick none).requestDict = [("command", JVal.str "ping")] ∧
    dictGet (send_ping_tick none).requestDict "streamSessionId" = none ∧
    (send_ping_tick none).awaitsResponse = true := by
  exact ⟨rfl, rfl, rfl, rfl, rfl, rfl⟩

/-- C6: the claim says that on an empty or payload-less streamed packet the
whole multiplexer ends: the read loop stops and `endStream` runs to
completion, unsubscribing every registered subscription. The code violates
this: with two registered subscriptions and an empty packet, `endStream`
unsubscribes only the first task and then the dict iteration over the tasks
it is popping raises `RuntimeError`, leaving the second subscription
registered; and a packet without a `data` field raises `KeyError` at
`response['data']` without calling `endStream` at all. `endStream` also
raises `UnboundLocalError` when no task is registered, so it never runs to
completion. -/
theorem readStream_fault_does_not_end_cleanly :
    readStreamStep (fun _ => some []) twoTaskStreams =
      ⟨.exn "RuntimeError", true, ["stopKeepAlive"], ⟨[(1, tpTask)], some false⟩⟩ ∧
    readStreamStep (fun _ => some noRetResp) twoTaskStreams =
      ⟨.exn "KeyError", false, [], twoTaskStreams⟩ ∧
    endStream twoTaskStreams false =
      ⟨.exn "RuntimeError", ["stopKeepAlive"], ⟨[(1, tpTask)], some false⟩, true⟩ ∧
    endStream ⟨[], some true⟩ false =
      ⟨.exn "UnboundLocalError", [], ⟨[], some false⟩, true⟩ := by
  exact ⟨rfl, rfl, rfl, rfl⟩

/-- C7: the claim says a second `close()`, a second `delete()` and a second
`_stop_ping()` never raise and are successful no-ops. That holds for
`Client.close` and `_GeneralHandler._stop_ping`, but the code violates it
for `_StreamHandler.delete`: already the first call raises `RuntimeError`
out of `endStream` (pop during dict iteration over the registered tasks),
before the `_deleted` flag is set or the handler is detached. -/
theorem second_calls_idempotent_but_stream_delete_raises :
    clientClose ⟨true, [saA]⟩ = (.ok true, ⟨false, []⟩) ∧
    clientClose ⟨false, []⟩ = (.ok true, ⟨false, []⟩) ∧
    stop_ping ⟨true, true⟩ false = (true, ⟨true, false⟩) ∧
    stop_ping ⟨true, false⟩ false = (true, ⟨true, false⟩) ∧
    (shDelete shNormal).1 = .exn "RuntimeError" ∧
    (shDelete shNormal).2.deleted = false ∧
    (shDelete shNormal).2.attached = true := by
  exact ⟨rfl, rfl, rfl, rfl, rfl, rfl, rfl⟩

/-- C2: for `_request` and for the receive loop of `_receive`, a transport
failure with `retry=true` invokes the reconnect callback exactly once and is
followed by exactly one more attempt; with `retry=false` a single failed
attempt returns false immediately; and in no execution is the reconnect
callback invoked more than once per call. -/
theorem request_receive_single_retry (send : Nat → Bool)
    (rr : Nat → Option Resp) :
    ((request send true).reconnects ≤ 1 ∧ (request send false).reconnects ≤ 1 ∧
      (receiveRaw rr true).reconnects ≤ 1 ∧
      (receiveRaw rr false).reconnects ≤ 1) ∧
    (send 0 = false →
      request send true = ⟨send 1, 2, 1⟩ ∧
      request send false = ⟨false, 1, 0⟩) ∧
    (respFalsy (rr 0) = true →
      (receiveRaw rr true).reconnects = 1 ∧
      (receiveRaw rr true).attempts = 2 ∧
      receiveRaw rr false = ⟨none, 1, 0⟩) := by
  refine ⟨⟨?_, ?_, ?_, ?_⟩, ?_, ?_⟩
  · cases h0 : send 0 <;> cases h1 : send 1 <;>
      simp [request, requestOnce, h0, h1]
  · cases h0 : send 0 <;> simp [request, requestOnce, h0]
  · cases h0 : respFalsy (rr 0) <;> cases h1 : respFalsy (rr 1) <;>
      simp [receiveRaw, receiveOnce, h0, h1]
  · cases h0 : respFalsy (rr 0) <;> simp [receiveRaw, receiveOnce, h0]
  · intro h0
    cases h1 : send 1 <;> simp [request, requestOnce, h0, h1]
  · intro h0
    refine ⟨?_, ?_, ?_⟩ <;>
      cases h1 : respFalsy (rr 1) <;>
        simp [receiveRaw, receiveOnce, h0, h1]

/-- Witness for C2 at the concrete oracles that always fail. -/
theorem request_receive_single_retry_witness :
    request (fun _ => false) true = ⟨false, 2, 1⟩ ∧
    request (fun _ => false) false = ⟨false, 1, 0⟩ ∧
    (receiveRaw (fun _ => none) true).reconnects = 1 ∧
    (receiveRaw (fun _ => none) true).attempts = 2 ∧
    receiveRaw (fun _ => none) false = ⟨none, 1, 0⟩ := by
  obtain ⟨-, h2, h3⟩ :=
    request_receive_single_retry (fun _ => false) (fun _ => none)
  obtain ⟨h2a, h2b⟩ := h2 rfl
  obtain ⟨h3a, h3b, h3c⟩ := h3 rfl
  exact ⟨h2a, h2b, h3a, h3b, h3c⟩

/-- C3: a decoded response whose `status` field is false makes `_receive`
with the data flag return false without ever invoking the reconnect
callback, and a `getData` call that receives such a response (after a
successful send) returns false with zero reconnects, so the handler status
is whatever it was before, in particular still active. -/
theorem status_false_app_failure (send : Nat → Bool) (rr : Nat → Option Resp)
    (fs : Resp) (tok : String) (recon : String → String)
    (hsend : send 0 = true) (hrr : rr 0 = some fs) (hne : fs ≠ [])
    (hstat : dictGet fs "status" = some (JVal.bool false))
    (hec : dictHas fs "errorCode" = true)
    (hed : dictHas fs "errorDescr" = true)
    (htok : tok ≠ "") :
    receiveFull rr true true = ⟨.ok none, 1, 0⟩ ∧
    getData (some tok) send rr = ⟨.ok none, 1, 1, 0⟩ ∧
    iterApply recon (getData (some tok) send rr).reconnects "active" =
      "active" := by
  have hfal : respFalsy (some fs) = false := by
    cases fs with
    | nil => exact absurd rfl hne
    | cons a l => rfl
  have hsome : dictHas fs "status" = true := by simp [dictHas, hstat]
  have h1 : receiveRaw rr true = ⟨some fs, 1, 0⟩ := by
    simp [receiveRaw, hrr, hfal]
  have h2 : receiveValidate true (some fs) = .ok none := by
    simp [receiveValidate, hsome, hstat, jvalD, JVal.truthy, hec, hed]
  have h3 : receiveFull rr true true = ⟨.ok none, 1, 0⟩ := by
    simp [receiveFull, h1, h2]
  have h4 : getData (some tok) send rr = ⟨.ok none, 1, 1, 0⟩ := by
    simp [getData, optStrTruthy, htok, request, hsend, h3]
  exact ⟨h3, h4, by rw [h4]; rfl⟩

/-- Witness for C3 at the concrete error response
`[status := false, errorCode := E1, errorDescr := bad]`. -/
theorem status_false_app_failure_witness :
    receiveFull (fun _ => some statusFalseResp) true true = ⟨.ok none, 1, 0⟩ ∧
    getData (some "token") (fun _ => true) (fun _ => some statusFalseResp) =
      ⟨.ok none, 1, 1, 0⟩ ∧
    iterApply (fun _ => "inactive")
      (getData (some "token") (fun _ => true)
        (fun _ => some statusFalseResp)).reconnects "active" = "active" := by
  exact status_false_app_failure (fun _ => true)
    (fun _ => some statusFalseResp) statusFalseResp "token"
    (fun _ => "inactive") rfl rfl (by simp [statusFalseResp]) rfl rfl rfl
    (by decide)

/-- C4: `getData` and `streamData` return false and send nothing when the
stored session token is absent or empty; with a token present, `getData`
returns exactly the `returnData` field of a validated response, and false
when that field is missing. -/
theorem token_gate_and_returnData (send : Nat → Bool)
    (rr : Nat → Option Resp) (st : StreamsState) (cmd : String)
    (kwargs : Resp) :
    getData none send rr = ⟨.ok none, 0, 0, 0⟩ ∧
    getData (some "") send rr = ⟨.ok none, 0, 0, 0⟩ ∧
    streamData none send st cmd kwargs = ⟨false, st, 0, 0⟩ ∧
    streamData (some "") send st cmd kwargs = ⟨false, st, 0, 0⟩ ∧
    (∀ (tok : String) (fs : Resp) (v : JVal), tok ≠ "" → send 0 = true →
      rr 0 = some fs → fs ≠ [] →
      dictGet fs "status" = some (JVal.bool true) →
      dictGet fs "returnData" = some v →
      getData (some tok) send rr = ⟨.ok (some v), 1, 1, 0⟩) ∧
    (∀ (tok : String) (fs : Resp), tok ≠ "" → send 0 = true →
      rr 0 = some fs → fs ≠ [] →
      dictGet fs "status" = some (JVal.bool true) →
      dictGet fs "returnData" = none →
      getData (some tok) send rr = ⟨.ok none, 1, 1, 0⟩) := by
  refine ⟨by simp [getData, optStrTruthy], by simp [getData, optStrTruthy],
    by simp [streamData, optStrTruthy], by simp [streamData, optStrTruthy],
    ?_, ?_⟩
  · intro tok fs v htok hsend hrr hne hstat hret
    have hfal : respFalsy (some fs) = false := by
      cases fs with
      | nil => exact absurd rfl hne
      | cons a l => rfl
    have hsome : dictHas fs "status" = true := by simp [dictHas, hstat]
    have h1 : receiveRaw rr true = ⟨some fs, 1, 0⟩ := by
      simp [receiveRaw, hrr, hfal]
    have h2 : receiveValidate true (some fs) = .ok (some fs) := by
      simp [receiveValidate, hsome, hstat, jvalD, JVal.truthy]
    have h3 : receiveFull rr true true = ⟨.ok (some fs), 1, 0⟩ := by
      simp [receiveFull, h1, h2]
    have hhas : dictHas fs "returnData" = true := by simp [dictHas, hret]
    simp [getData, optStrTruthy, htok, request, hsend, h3, hhas, hret, jvalD]
  · intro tok fs htok hsend hrr hne hstat hret
    have hfal : respFalsy (some fs) = false := by
      cases fs with
      | nil => exact absurd rfl hne
      | cons a l => rfl
    have hsome : dictHas fs "status" = true := by simp [dictHas, hstat]
    have h1 : receiveRaw rr true = ⟨some fs, 1, 0⟩ := by
      simp [receiveRaw, hrr, hfal]
    have h2 : receiveValidate true (some fs) = .ok (some fs) := by
      simp [receiveValidate, hsome, hstat, jvalD, JVal.truthy]
    have h3 : receiveFull rr true true = ⟨.ok (some fs), 1, 0⟩ := by
      simp [receiveFull, h1, h2]
    have hhas : dictHas fs "returnData" = false := by simp [dictHas, hret]
    simp [getData, optStrTruthy, htok, request, hsend, h3, hhas]

/-- Witness for C4 at concrete responses with and without `returnData`. -/
theorem token_gate_and_returnData_witness :
    getData none (fun _ => true) (fun _ => some okResp) = ⟨.ok none, 0, 0, 0⟩ ∧
    streamData (some "") (fun _ => true) twoTaskStreams "TickPrices" [] =
      ⟨false, twoTaskStreams, 0, 0⟩ ∧
    getData (some "token") (fun _ => true) (fun _ => some okResp) =
      ⟨.ok (some (JVal.str "payload")), 1, 1, 0⟩ ∧
    getData (some "token") (fun _ => true) (fun _ => some noRetResp) =
      ⟨.ok none, 1, 1, 0⟩ := by
  refine ⟨?_, ?_, ?_, ?_⟩
  · exact (token_gate_and_returnData (fun _ => true) (fun _ => some okResp)
      twoTaskStreams "x" []).1
  · exact (token_gate_and_returnData (fun _ => true) (fun _ => some okResp)
      twoTaskStreams "TickPrices" []).2.2.2.1
  · exact (token_gate_and_returnData (fun _ => true) (fun _ => some okResp)
      twoTaskStreams "x" []).2.2.2.2.1 "token" okResp (JVal.str "payload")
      (by decide) rfl rfl (by simp [okResp]) rfl rfl
  · exact (token_gate_and_returnData (fun _ => true) (fun _ => some noRetResp)
      twoTaskStreams "x" []).2.2.2.2.2 "token" noRetResp
      (by decide) rfl rfl (by simp [noRetResp]) rfl rfl

/-- C10: in non-streaming mode a first poll with no bytes ready makes
`Client.receive` return the empty string at once, with a single poll and no
sleep; the empty string is falsy, so `_receive_response` maps it to the same
false as a transport error, and a retrying `_receive` that sees that false
takes the reconnect path. -/
theorem quiet_socket_empty_receive (poll : Nat → PollOutcome)
    (decode : String → Option Resp) (fuel : Nat) (rr : Nat → Option Resp)
    (hp : poll 0 = .notReady) (hf : 0 < fuel) (hrr : rr 0 = none) :
    clientReceive false poll fuel = some (some "", 1, 0) ∧
    receive_response decode (some "") = none ∧
    receive_response decode none = none ∧
    respFalsy (receive_response decode (some "")) =
      respFalsy (receive_response decode none) ∧
    (receiveRaw rr true).reconnects = 1 ∧
    receiveRaw rr false = ⟨none, 1, 0⟩ := by
  obtain ⟨n, rfl⟩ : ∃ n, fuel = n + 1 := by
    cases fuel with
    | zero => exact absurd hf (by simp)
    | succ n => exact ⟨n, rfl⟩
  have h0 : respFalsy (rr 0) = true := by rw [hrr]; rfl
  refine ⟨?_, rfl, rfl, rfl, ?_, ?_⟩
  · simp [clientReceive, clientReceiveLoop, hp]
  · cases h1 : respFalsy (rr 1) <;>
      simp [receiveRaw, receiveOnce, h0, h1]
  · simp [receiveRaw, receiveOnce, h0]

/-- Witness for C10 at a socket that is never readable. -/
theorem quiet_socket_empty_receive_witness :
    clientReceive false (fun _ => PollOutcome.notReady) 1 =
      some (some "", 1, 0) ∧
    receive_response (fun _ => none) (some "") = none ∧
    (receiveRaw (fun _ => none) true).reconnects = 1 := by
  obtain ⟨h1, h2, -, -, h5, -⟩ :=
    quiet_socket_empty_receive (fun _ => PollOutcome.notReady)
      (fun _ => none) 1 (fun _ => none) rfl (by decide) rfl
  exact ⟨h1, h2, h5⟩

end XTBpy
